import Mathlib

/-!
Shallow embedding of the `application` service-lifecycle orchestrator
(Go package `app`) and proofs of the specification claims about it.

External effects (network dials, pings, close results) are supplied by an
explicit environment (`World`) or recorded as behavioural fields on the
handles (`DB`, `Redis`, `SubService`, `HTTPServer`), since the Go
counterparts are interfaces whose implementations are characterised
exactly by those observable answers.  Unbounded loops in the source are
embedded with an explicit fuel parameter: `none` means the loop has not
returned within that much fuel.
-/

namespace App

/-- Go `error` values appearing in this codebase: the `ErrTermSig`
sentinel from signal.go, the two cancellation errors a `context` can
report, and an opaque payload for everything else. -/
inductive GoError where
  | termSig
  | canceled
  | deadlineExceeded
  | other (msg : String)
deriving DecidableEq, Repr

/-- Sentinel from signal.go: `ErrTermSig = errors.New("termination signal caught")`. -/
def ErrTermSig : GoError := GoError.termSig

/-- Errors a Go `context.Context` can report from `ctx.Err()` once done. -/
inductive CtxErr where
  | canceled
  | deadlineExceeded
deriving DecidableEq, Repr

/-- Embedding of a context error into the common error type. -/
def CtxErr.toGoError : CtxErr → GoError
  | .canceled => GoError.canceled
  | .deadlineExceeded => GoError.deadlineExceeded

/-- Which branch of the `select` in `SignalTrap.Wait` fires: a termination
signal arrived on the trap channel, or the context became done with the
given context error. -/
inductive WaitOutcome where
  | termSig
  | ctxDone (e : CtxErr)
deriving DecidableEq, Repr

/-- signal.go `SignalTrap.Wait`: `select` returning `ErrTermSig` when a
signal arrives and `ctx.Err()` when the context is done first. -/
def SignalTrap.Wait : WaitOutcome → GoError
  | .termSig => ErrTermSig
  | .ctxDone e => e.toGoError

/-- Model of the Go `DB` interface (`Ping(ctx) error`, `Close() error`):
an implementation is characterised by the answers it gives.  `Ping = none`
models a nil error from `Ping`. -/
structure DB where
  Ping : Option GoError
  Close : Option GoError
deriving DecidableEq, Repr

/-- Model of the Go `Redis` interface (`Ping(ctx) (string, error)`,
`Close() error`): `Ping` is the reply/error pair returned by the ping. -/
structure Redis where
  Ping : String × Option GoError
  Close : Option GoError
deriving DecidableEq, Repr

/-- Model of the Go `SubService` interface (`Ready() bool`,
`Name() string`, `Close() error`). -/
structure SubService where
  Name : String
  Ready : Bool
  Close : Option GoError
deriving DecidableEq, Repr

/-- gRPC listener descriptor; the `*grpc.Server` transport handle itself
is external and carries no observable state used by the claims. -/
structure GRPCServer where
  address : String
deriving DecidableEq, Repr

/-- Model of `*http.Server`: its bind address and the outcome its
`Shutdown` call reports during `Stop`. -/
structure HTTPServer where
  Addr : String
  Shutdown : Option GoError
deriving DecidableEq, Repr

/-- Network environment: whether a gRPC dial to an address succeeds, and
whether the n-th TCP `DialTimeout` attempt to an address succeeds (the
attempt index models the passage of time across retries). -/
structure World where
  grpcDialOk : String → Bool
  tcpDialOk : String → Nat → Bool

/-- Orchestrator state (Go `Service`).  The Go `SubServices` map is
embedded as a list in some iteration order; `isReady` holds the Bool
stored in the `atomic.Value`.  The context, error channel and signal
handler fields carry no data relevant to the claims and are modelled at
the call sites that use them (`Start`, `Stop`). -/
structure Service where
  Name : String
  GRPCServers : List GRPCServer
  HTTPServers : List HTTPServer
  DB : Option DB
  Redis : Option Redis
  isReady : Bool
  SubServices : List SubService
deriving DecidableEq, Repr

/-- `Service.checkGRPCServerUp`: dials every configured gRPC address
(blocking dial); returns false on the first failed dial, true when all
succeed. -/
def Service.checkGRPCServerUp (s : Service) (w : World) : Bool :=
  s.GRPCServers.all fun server => w.grpcDialOk server.address

/-- Retry loop body of `Service.checkHTTPServerUp`: `for err != nil`
re-dials the address with no bound; the only way out of the loop is a
successful dial, after which the function returns `true`.  `fuel` bounds
how many attempts we observe: `none` means the loop is still running. -/
def checkHTTPLoop (dialOk : Nat → Bool) (attempt : Nat) : Nat → Option Bool
  | 0 => none
  | fuel + 1 =>
      if dialOk attempt then some true
      else checkHTTPLoop dialOk (attempt + 1) fuel

/-- `Service.checkHTTPServerUp`: raw TCP dial to the server's address,
retried in an unbounded loop until a dial succeeds. -/
def Service.checkHTTPServerUp (_s : Service) (w : World) (httpServer : HTTPServer)
    (fuel : Nat) : Option Bool :=
  checkHTTPLoop (w.tcpDialOk httpServer.Addr) 0 fuel

/-- Loop shared by `IsAlive` and `Ready`:
`for each httpServer { if !checkHTTPServerUp(httpServer) { acc = false } }`. -/
def httpServersAliveLoop (s : Service) (w : World) (fuel : Nat) :
    List HTTPServer → Bool → Option Bool
  | [], acc => some acc
  | srv :: rest, acc =>
      match s.checkHTTPServerUp w srv fuel with
      | none => none
      | some ok => httpServersAliveLoop s w fuel rest (acc && ok)

/-- Aggregate HTTP reachability as computed inside `IsAlive` / `Ready`. -/
def Service.httpServersAlive (s : Service) (w : World) (fuel : Nat) : Option Bool :=
  httpServersAliveLoop s w fuel s.HTTPServers true

/-- `Service.checkDBAlive`: `isReady := s.DB.Ping(s.ctx) == nil` (the
error is logged only). -/
def Service.checkDBAlive (_s : Service) (db : App.DB) : Bool :=
  db.Ping.isNone

/-- `Service.checkRedisAlive`: `pong, err := s.Redis.Ping(s.ctx);
isReady := pong == "PONG"` — the returned error is logged but does not
enter the result. -/
def Service.checkRedisAlive (_s : Service) (redis : App.Redis) : Bool :=
  redis.Ping.1 == "PONG"

/-- The `isDBAlive` conjunct of `IsAlive` / `Ready`: true when no DB is
attached (`s.DB == nil`), otherwise the ping check. -/
def Service.dbAliveCond (s : Service) : Bool :=
  match s.DB with
  | none => true
  | some db => s.checkDBAlive db

/-- The `isRedisAlive` conjunct of `IsAlive` / `Ready`: true when no
cache is attached, otherwise the ping-reply check. -/
def Service.redisAliveCond (s : Service) : Bool :=
  match s.Redis with
  | none => true
  | some redis => s.checkRedisAlive redis

/-- `Service.IsAlive`: conjunction of gRPC reachability (guarded by
`s.GRPCServers != nil`; a nil slice in this codebase is exactly the empty
list, since only `append` populates it), HTTP reachability for every
listener, DB ping if attached, cache ping if attached.  `none` when an
HTTP reachability loop has not returned within `fuel` attempts. -/
def Service.IsAlive (s : Service) (w : World) (fuel : Nat) : Option Bool :=
  let isGrpcAlive := if s.GRPCServers.isEmpty then true else s.checkGRPCServerUp w
  match s.httpServersAlive w fuel with
  | none => none
  | some areHTTPServersAlive =>
      some (isGrpcAlive && areHTTPServersAlive && s.dbAliveCond && s.redisAliveCond)

/-- Body of `Service.Ready` before the final `Swap`: the readiness
conjunction over sub-services, gRPC listeners, HTTP listeners, DB and
cache. -/
def Service.readyEval (s : Service) (w : World) (fuel : Nat) : Option Bool :=
  let areSubServicesReady := s.SubServices.all fun subService => subService.Ready
  let isGRPCReady := if s.GRPCServers.isEmpty then true else s.checkGRPCServerUp w
  match s.httpServersAlive w fuel with
  | none => none
  | some areHTTPServersReady =>
      some (areSubServicesReady && isGRPCReady && areHTTPServersReady
            && s.dbAliveCond && s.redisAliveCond)

/-- `Service.Ready`: computes the readiness conjunction and atomically
overwrites the shared flag (`s.isReady.Swap(...)`).  When the evaluation
is still blocked in an HTTP retry loop the flag is untouched. -/
def Service.Ready (s : Service) (w : World) (fuel : Nat) : Service :=
  match s.readyEval w fuel with
  | none => s
  | some b => { s with isReady := b }

/-- Model of the Go `Option` interface (`Apply(service *Service) error`):
an option mutates the service in place and reports an error.  The
returned pair carries the mutated service and the error value. -/
def ServiceOption : Type := Service → Service × Option GoError

/-- Orchestrator state as built by `New` before the option loop:
`isReady.Store(false)`, empty listener collections, empty sub-service
map, no dependency handles.  The context, error channel and signal
handler fields are external handles carrying no claim-relevant data. -/
def initService (name : String) : Service :=
  { Name := name
    GRPCServers := []
    HTTPServers := []
    DB := none
    Redis := none
    isReady := false
    SubServices := [] }

/-- Option loop of `New`: `for _, o := range options { if err := o.Apply(s);
err != nil { return nil, err } }` — `Except.error e` models the
`(nil, err)` return, carrying no service. -/
def applyOptions : List ServiceOption → Service → Except GoError Service
  | [], s => Except.ok s
  | o :: rest, s =>
      match o s with
      | (s', none) => applyOptions rest s'
      | (_, some e) => Except.error e

/-- `New(ctx, name, options...)`: builds the initial service, applies the
options in call order, and aborts with the first error. -/
def New (name : String) (options : List ServiceOption) : Except GoError Service :=
  applyOptions options (initService name)

/-- options.go `GRPCServerOption`. -/
structure GRPCServerOption where
  address : String

/-- `GRPCServerOption.Apply`: instantiates a gRPC server eagerly and
appends its descriptor; always returns nil. -/
def GRPCServerOption.Apply (w : GRPCServerOption) (s : Service) :
    Service × Option GoError :=
  ({ s with GRPCServers := s.GRPCServers ++ [{ address := w.address }] }, none)

/-- options.go `WithGRPCServer`. -/
def WithGRPCServer (address : String) : ServiceOption :=
  GRPCServerOption.Apply { address := address }

/-- options.go `TechHTTPServerOption`. -/
structure TechHTTPServerOption where
  address : String

/-- `TechHTTPServerOption.Apply`: mounts the status router (readiness,
liveness, telemetry, pprof — external router internals) and appends the
`http.Server` at the option's address; always returns nil. -/
def TechHTTPServerOption.Apply (w : TechHTTPServerOption) (s : Service) :
    Service × Option GoError :=
  ({ s with HTTPServers := s.HTTPServers ++ [{ Addr := w.address, Shutdown := none }] },
   none)

/-- options.go `WithTechHTTPServerOption`. -/
def WithTechHTTPServerOption (address : String) : ServiceOption :=
  TechHTTPServerOption.Apply { address := address }

/-- options.go `DBOption`. -/
structure DBOption where
  db : DB

/-- `DBOption.Apply`: attaches the database handle; always returns nil. -/
def DBOption.Apply (w : DBOption) (s : Service) : Service × Option GoError :=
  ({ s with DB := some w.db }, none)

/-- options.go `WithDB`. -/
def WithDB (db : DB) : ServiceOption :=
  DBOption.Apply { db := db }

/-- options.go `RedisOption`. -/
structure RedisOption where
  redis : Redis

/-- `RedisOption.Apply`: attaches the cache handle; always returns nil. -/
def RedisOption.Apply (w : RedisOption) (s : Service) : Service × Option GoError :=
  ({ s with Redis := some w.redis }, none)

/-- options.go `WithRedis`. -/
def WithRedis (redis : Redis) : ServiceOption :=
  RedisOption.Apply { redis := redis }

/-- The four recognized configuration options of options.go, as data, so
that statements can quantify over an arbitrary combination of them. -/
inductive RecognizedOption where
  | grpcServer (address : String)
  | techHTTPServer (address : String)
  | db (handle : DB)
  | redis (handle : Redis)

/-- Interpretation of a recognized option as the `ServiceOption` its
`With...` constructor builds. -/
def RecognizedOption.toOption : RecognizedOption → ServiceOption
  | .grpcServer address => WithGRPCServer address
  | .techHTTPServer address => WithTechHTTPServerOption address
  | .db handle => WithDB handle
  | .redis handle => WithRedis handle

/-- Observable outcome of `Service.Start`: the serve task spawned per
HTTP listener, the serve task spawned per gRPC listener, how many
readiness-evaluation tasks are spawned (`go s.Ready()` appears exactly
once), and the value `Start` returns after blocking on the signal trap
(`none` models a nil error). -/
structure StartOutcome where
  httpTasks : List String
  grpcTasks : List String
  readyTasks : Nat
  ret : Option GoError
deriving DecidableEq, Repr

/-- `Service.Start`: spawns one serve goroutine per listener and one
readiness task, then blocks on `s.sigHandler.Wait(ctx)`; a non-nil wait
error is returned unless it is `ErrTermSig` (`errors.Is` on the sentinel
is equality here, as nothing wraps it), in which case nil is returned. -/
def Service.Start (s : Service) (o : WaitOutcome) : StartOutcome :=
  { httpTasks := s.HTTPServers.map fun srv => srv.Addr
    grpcTasks := s.GRPCServers.map fun srv => srv.address
    readyTasks := 1
    ret :=
      let err := SignalTrap.Wait o
      if err = ErrTermSig then none else some err }

/-- Teardown actions performed by `Service.Stop`, in execution order;
each close/shutdown event records whether the resource reported an error
(the code only logs it and continues). -/
inductive StopEvent where
  | closeSubService (name : String) (closeFailed : Bool)
  | gracefulStopGRPC (address : String)
  | shutdownHTTP (addr : String) (shutdownFailed : Bool)
  | closeDB (closeFailed : Bool)
  | closeRedis (closeFailed : Bool)
  | exitProcess (code : Nat)
deriving DecidableEq, Repr

/-- `Service.Stop`: closes every sub-service, gracefully stops every gRPC
listener, shuts down every HTTP listener with the orchestrator's context,
closes the DB handle if attached, closes the cache handle if attached,
then calls `os.Exit(1)`.  All errors are logged only, so the event list
is the complete observable behaviour. -/
def Service.Stop (s : Service) : List StopEvent :=
  (s.SubServices.map fun sub => StopEvent.closeSubService sub.Name sub.Close.isSome)
  ++ (s.GRPCServers.map fun g => StopEvent.gracefulStopGRPC g.address)
  ++ (s.HTTPServers.map fun h => StopEvent.shutdownHTTP h.Addr h.Shutdown.isSome)
  ++ (match s.DB with
      | none => []
      | some db => [StopEvent.closeDB db.Close.isSome])
  ++ (match s.Redis with
      | none => []
      | some redis => [StopEvent.closeRedis redis.Close.isSome])
  ++ [StopEvent.exitProcess 1]

/-- Which resource a teardown event acted on, with the success/failure
report erased. -/
inductive StopStep where
  | subServiceClose (name : String)
  | grpcStop (address : String)
  | httpShutdown (addr : String)
  | dbClose
  | redisClose
  | exit (code : Nat)
deriving DecidableEq, Repr

/-- Erasure of a teardown event to the step it attempted. -/
def StopEvent.step : StopEvent → StopStep
  | .closeSubService n _ => .subServiceClose n
  | .gracefulStopGRPC a => .grpcStop a
  | .shutdownHTTP a _ => .httpShutdown a
  | .closeDB _ => .dbClose
  | .closeRedis _ => .redisClose
  | .exitProcess c => .exit c

/-- Rewrites every close/shutdown outcome of the service's resources,
leaving everything else unchanged: used to state that the teardown steps
attempted by `Stop` do not depend on any close failure. -/
def Service.withCloseErrs (s : Service) (subErr : String → Option GoError)
    (httpErr : String → Option GoError) (dbErr redisErr : Option GoError) : Service :=
  { s with
    SubServices := s.SubServices.map fun sub => { sub with Close := subErr sub.Name }
    HTTPServers := s.HTTPServers.map fun h => { h with Shutdown := httpErr h.Addr }
    DB := s.DB.map fun db => { db with Close := dbErr }
    Redis := s.Redis.map fun redis => { redis with Close := redisErr } }

/-- Response produced by a status-endpoint handler: HTTP status line code
and body (the `Content-Type` header is not modelled). -/
structure HTTPResponse where
  status : Nat
  body : String
deriving DecidableEq, Repr

/-- health.go `errorResponse`, marshalled by `AnswerWithJSONError`. -/
structure errorResponse where
  ErrorCode : Nat
  ErrorDetails : String
deriving DecidableEq, Repr

/-- Go `json.Marshal` on `errorResponse`: exported fields, declaration
order, field names as keys (neither field needs JSON escaping here). -/
def marshalErrorResponse (e : errorResponse) : String :=
  "\x7b\"ErrorCode\":" ++ toString e.ErrorCode
    ++ ",\"ErrorDetails\":\"" ++ e.ErrorDetails ++ "\"\x7d"

/-- health.go `AnswerWithJSONError`: marshals the error payload (which
cannot fail for this struct), mirrors the code on the status line and
writes the JSON body. -/
def AnswerWithJSONError (code : Nat) : HTTPResponse :=
  { status := code
    body := marshalErrorResponse { ErrorCode := code
                                   ErrorDetails := "error during request processing" } }

/-- health.go `alive` handler for GET /health/live: evaluates every
checker afresh at the instant `t` of the request (a checker is modelled
as a function of that instant, since its answer may change between
requests); the first false checker yields the 503 JSON error, otherwise
the handler answers 200 with an empty body. -/
def alive (t : Nat) : List (Nat → Bool) → HTTPResponse
  | [] => { status := 200, body := "" }
  | c :: rest => if c t then alive t rest else AnswerWithJSONError 503

/-- part_001 `ready` handler for GET /ready and GET /health/ready: each
entry models one `*atomic.Value` pointer (`none` is a nil pointer,
`some b` a pointer whose stored Bool is `b`); a nil pointer or a stored
false yields the 503 JSON error, otherwise 200 with an empty body. -/
def ready : List (Option Bool) → HTTPResponse
  | [] => { status := 200, body := "" }
  | r :: rest =>
      match r with
      | some true => ready rest
      | _ => AnswerWithJSONError 503

/-- Environment in which every dial succeeds immediately. -/
def liveWorld : World :=
  { grpcDialOk := fun _ => true
    tcpDialOk := fun _ _ => true }

/-- Environment in which no dial ever succeeds: an address that never
accepts a connection. -/
def deadWorld : World :=
  { grpcDialOk := fun _ => false
    tcpDialOk := fun _ _ => false }

/-- Concrete orchestrator exercising every dependency kind: one gRPC
listener, one HTTP listener, a healthy DB, a cache answering PONG, one
ready sub-service. -/
def svcFull : Service :=
  { Name := "svc"
    GRPCServers := [{ address := ":8080" }]
    HTTPServers := [{ Addr := ":5051", Shutdown := none }]
    DB := some { Ping := none, Close := none }
    Redis := some { Ping := ("PONG", none), Close := none }
    isReady := false
    SubServices := [{ Name := "worker", Ready := true, Close := none }] }

/-- Orchestrator built by `New "svc" [WithGRPCServer ":8080"]`. -/
def svcGrpcOnly : Service :=
  { Name := "svc"
    GRPCServers := [{ address := ":8080" }]
    HTTPServers := []
    DB := none
    Redis := none
    isReady := false
    SubServices := [] }

/-- Checker answering true on the first request instant and false
afterwards: a checker flipping between two calls. -/
def flipChecker : Nat → Bool := fun t => t == 0

/-- Option double that mutates nothing and succeeds. -/
def okOpt : ServiceOption := fun s => (s, none)

/-- Option double whose `Apply` fails. -/
def failingOpt : ServiceOption := fun s => (s, some (GoError.other "boom"))

/-! ### Helper lemmas -/

/-- The `s.GRPCServers != nil` guard in `IsAlive` / `Ready` is equivalent
to running the check unconditionally, since the check over an empty
collection is true. -/
theorem grpcGuard_eq (s : Service) (w : World) :
    (if s.GRPCServers.isEmpty then true else s.checkGRPCServerUp w)
      = s.checkGRPCServerUp w := by
  cases h : s.GRPCServers with
  | nil => simp [Service.checkGRPCServerUp, h]
  | cons a l => simp [h]

/-- Characterisation of the gRPC reachability check. -/
theorem checkGRPCServerUp_eq_true_iff (s : Service) (w : World) :
    s.checkGRPCServerUp w = true
      ↔ ∀ g ∈ s.GRPCServers, w.grpcDialOk g.address = true := by
  simp [Service.checkGRPCServerUp]

/-- Characterisation of the DB conjunct: trivially true when no DB is
attached, otherwise the ping must answer nil. -/
theorem dbAliveCond_eq_true_iff (s : Service) :
    s.dbAliveCond = true ↔ ∀ db, s.DB = some db → db.Ping = none := by
  cases h : s.DB with
  | none => simp [Service.dbAliveCond, h]
  | some db =>
      simp [Service.dbAliveCond, h, Service.checkDBAlive, Option.isNone_iff_eq_none]

/-- Characterisation of the cache conjunct: trivially true when no cache
is attached, otherwise the ping reply must be the canonical PONG. -/
theorem redisAliveCond_eq_true_iff (s : Service) :
    s.redisAliveCond = true ↔ ∀ redis, s.Redis = some redis → redis.Ping.1 = "PONG" := by
  cases h : s.Redis with
  | none => simp [Service.redisAliveCond, h]
  | some redis => simp [Service.redisAliveCond, h, Service.checkRedisAlive]

/-- When every HTTP reachability loop has returned, `IsAlive` is the
conjunction computed by the source. -/
theorem isAlive_eq_of_http (s : Service) (w : World) (fuel : Nat) (hOk : Bool)
    (h : s.httpServersAlive w fuel = some hOk) :
    s.IsAlive w fuel
      = some (s.checkGRPCServerUp w && hOk && s.dbAliveCond && s.redisAliveCond) := by
  simp only [Service.IsAlive, h]
  rw [grpcGuard_eq]

/-- When every HTTP reachability loop has returned, the readiness
evaluation is the conjunction computed by the source. -/
theorem readyEval_eq_of_http (s : Service) (w : World) (fuel : Nat) (hOk : Bool)
    (h : s.httpServersAlive w fuel = some hOk) :
    s.readyEval w fuel
      = some ((s.SubServices.all fun subService => subService.Ready)
          && s.checkGRPCServerUp w && hOk && s.dbAliveCond && s.redisAliveCond) := by
  simp only [Service.readyEval, h]
  rw [grpcGuard_eq]

/-- The retry loop of `checkHTTPServerUp` can never produce `false`: its
only exit is a successful dial returning `true`. -/
theorem checkHTTPLoop_ne_some_false (dialOk : Nat → Bool) (attempt fuel : Nat) :
    (checkHTTPLoop dialOk attempt fuel == some false) = false := by
  induction fuel generalizing attempt with
  | zero => rfl
  | succ n ih =>
      by_cases h : dialOk attempt = true
      · simp [checkHTTPLoop, h]
      · simp only [checkHTTPLoop, h, if_false, Bool.false_eq_true]
        exact ih (attempt + 1)

/-- Against an address whose dials all fail, the retry loop never
returns, whatever fuel it is given. -/
theorem checkHTTPLoop_dead (attempt fuel : Nat) :
    checkHTTPLoop (fun _ => false) attempt fuel = none := by
  induction fuel generalizing attempt with
  | zero => rfl
  | succ n ih => simpa [checkHTTPLoop] using ih (attempt + 1)

/-- The `alive` handler answers 200 with an empty body when every
checker answers true at the request instant. -/
theorem alive_of_all_true (t : Nat) (cs : List (Nat → Bool))
    (h : ∀ c ∈ cs, c t = true) :
    alive t cs = { status := 200, body := "" } := by
  induction cs with
  | nil => rfl
  | cons c rest ih =>
      have hc : c t = true := h c (List.mem_cons_self c rest)
      simp only [alive, hc, if_true]
      exact ih fun c' hc' => h c' (List.mem_cons_of_mem _ hc')

/-- The `alive` handler answers 503 when some checker answers false at
the request instant. -/
theorem alive_status_503_of_mem_false (t : Nat) (cs : List (Nat → Bool))
    (c : Nat → Bool) (hmem : c ∈ cs) (hf : c t = false) :
    (alive t cs).status = 503 := by
  induction cs with
  | nil => cases hmem
  | cons d rest ih =>
      by_cases hd : d t = true
      · simp only [alive, hd, if_true]
        rcases List.mem_cons.mp hmem with h | h
        · subst h
          rw [hd] at hf
          cases hf
        · exact ih h
      · simp only [alive, hd, if_false]
        rfl

/-- Appending a final singleton fixes the last element of the teardown
trace. -/
theorem getLast_append_singleton {α : Type} (l : List α) (x : α) :
    (l ++ [x]).getLast? = some x := by
  rw [List.getLast?_append_cons]
  rfl

/-- Every recognized option's `Apply` reports a nil error. -/
theorem recognized_apply_snd (ro : RecognizedOption) (s : Service) :
    (ro.toOption s).2 = none := by
  cases ro <;> rfl

/-- No recognized option touches the readiness flag. -/
theorem recognized_apply_isReady (ro : RecognizedOption) (s : Service) :
    (ro.toOption s).1.isReady = s.isReady := by
  cases ro <;> rfl

/-- Applying any list of recognized options succeeds and leaves the
readiness flag as it was. -/
theorem applyOptions_recognized (ros : List RecognizedOption) (s0 : Service) :
    ∃ s, applyOptions (ros.map RecognizedOption.toOption) s0 = Except.ok s
      ∧ s.isReady = s0.isReady := by
  induction ros generalizing s0 with
  | nil => exact ⟨s0, rfl, rfl⟩
  | cons ro rest ih =>
      obtain ⟨s, hs, hr⟩ := ih (ro.toOption s0).1
      refine ⟨s, ?_, ?_⟩
      · have h2 := recognized_apply_snd ro s0
        rcases hp : ro.toOption s0 with ⟨s', e⟩
        rw [hp] at h2
        simp only at h2
        subst h2
        rw [hp] at hs
        simpa [applyOptions, hp] using hs
      · rw [hr, recognized_apply_isReady]

/-- A run of the option loop that ends in `ok` applied the options left
to right, threading the mutated service. -/
theorem applyOptions_ok_foldl (opts : List ServiceOption) (s0 s : Service)
    (h : applyOptions opts s0 = Except.ok s) :
    s = opts.foldl (fun acc o => (o acc).1) s0 := by
  induction opts generalizing s0 with
  | nil =>
      simp only [applyOptions, Except.ok.injEq] at h
      simp [h]
  | cons o rest ih =>
      rcases hp : o s0 with ⟨s', e⟩
      cases e with
      | none =>
          simp only [applyOptions, hp] at h
          simpa [List.foldl_cons, hp] using ih s' h
      | some e' =>
          simp only [applyOptions, hp] at h
          cases h

/-- When a prefix of the option list succeeds and the next option fails,
the whole loop aborts with exactly that error. -/
theorem applyOptions_abort (pre : List ServiceOption) (o : ServiceOption)
    (rest : List ServiceOption) (s0 s₁ s₂ : Service) (e : GoError)
    (h1 : applyOptions pre s0 = Except.ok s₁) (h2 : o s₁ = (s₂, some e)) :
    applyOptions (pre ++ o :: rest) s0 = Except.error e := by
  induction pre generalizing s0 with
  | nil =>
      simp only [applyOptions, Except.ok.injEq] at h1
      subst h1
      simp [applyOptions, h2]
  | cons p ps ih =>
      rcases hp : p s0 with ⟨s', e'⟩
      cases e' with
      | none =>
          simp only [applyOptions, hp] at h1
          simpa only [List.cons_append, applyOptions, hp] using ih s' h1
      | some e'' =>
          simp only [applyOptions, hp] at h1
          cases h1

/-! ### Claim theorems -/

/-- C1: `IsAlive()` returns the logical AND of gRPC-listener
reachability (trivially true with no gRPC listeners configured), the
reachability reported for every HTTP listener, a successful database
ping when a DB handle is attached, and a cache ping answering the
canonical PONG reply when a cache handle is attached — an absent
dependency is trivially satisfied; and the `/health/live` handler
re-evaluates all checkers freshly on every request with no caching, so
flipping any one checker from true to false between two calls flips the
aggregate on the next call. -/
theorem c1_isAlive_conjunction_and_fresh :
    (∀ (s : Service) (w : World) (fuel : Nat) (hOk : Bool),
        s.httpServersAlive w fuel = some hOk →
        (s.IsAlive w fuel = some true ↔
          ((∀ g ∈ s.GRPCServers, w.grpcDialOk g.address = true)
            ∧ hOk = true
            ∧ (∀ db, s.DB = some db → db.Ping = none)
            ∧ (∀ redis, s.Redis = some redis → redis.Ping.1 = "PONG"))))
    ∧ (∀ (areAlive : List (Nat → Bool)) (t₁ t₂ : Nat) (c : Nat → Bool),
        (∀ c' ∈ areAlive, c' t₁ = true) → c ∈ areAlive → c t₂ = false →
        alive t₁ areAlive = { status := 200, body := "" }
          ∧ (alive t₂ areAlive).status = 503) := by
  constructor
  · intro s w fuel hOk h
    rw [isAlive_eq_of_http s w fuel hOk h, Option.some_inj]
    simp only [Bool.and_eq_true]
    rw [checkGRPCServerUp_eq_true_iff, dbAliveCond_eq_true_iff, redisAliveCond_eq_true_iff]
    tauto
  · intro areAlive t₁ t₂ c hall hmem hf
    exact ⟨alive_of_all_true t₁ areAlive hall,
           alive_status_503_of_mem_false t₂ areAlive c hmem hf⟩

/-- Witness for C1: the fully configured sample service is alive in the
all-dials-succeed environment, and the flipping checker yields 200 on
the first call and 503 on the next. -/
theorem c1_isAlive_conjunction_and_fresh_witness :
    svcFull.IsAlive liveWorld 1 = some true
      ∧ alive 0 [flipChecker] = { status := 200, body := "" }
      ∧ (alive 1 [flipChecker]).status = 503 := by
  have h2 := c1_isAlive_conjunction_and_fresh.2 [flipChecker] 0 1 flipChecker
    (by intro c' hc'
        simp only [List.mem_singleton] at hc'
        subst hc'
        rfl)
    (List.mem_singleton_self flipChecker) rfl
  refine ⟨?_, h2.1, h2.2⟩
  refine (c1_isAlive_conjunction_and_fresh.1 svcFull liveWorld 1 true rfl).mpr
    ⟨?_, rfl, ?_, ?_⟩
  · intro g hg
    rfl
  · intro db hdb
    simp only [svcFull, Option.some_inj] at hdb
    subst hdb
    rfl
  · intro redis hredis
    simp only [svcFull, Option.some_inj] at hredis
    subst hredis
    rfl

/-- C2: `Start` spawns exactly one readiness-evaluation task, and that
evaluation overwrites the readiness flag with the AND of every
sub-service reporting ready, gRPC reachability, reachability of every
HTTP listener, the database ping when attached and the cache ping when
attached. -/
theorem c2_readiness_once_conjunction :
    (∀ (s : Service) (o : WaitOutcome), (s.Start o).readyTasks = 1)
    ∧ (∀ (s : Service) (w : World) (fuel : Nat) (hOk : Bool),
        s.httpServersAlive w fuel = some hOk →
        ((s.Ready w fuel).isReady = true ↔
          ((∀ sub ∈ s.SubServices, sub.Ready = true)
            ∧ (∀ g ∈ s.GRPCServers, w.grpcDialOk g.address = true)
            ∧ hOk = true
            ∧ (∀ db, s.DB = some db → db.Ping = none)
            ∧ (∀ redis, s.Redis = some redis → redis.Ping.1 = "PONG")))) := by
  constructor
  · intro s o
    rfl
  · intro s w fuel hOk h
    have hr : (s.Ready w fuel).isReady
        = ((s.SubServices.all fun subService => subService.Ready)
            && s.checkGRPCServerUp w && hOk && s.dbAliveCond && s.redisAliveCond) := by
      simp [Service.Ready, readyEval_eq_of_http s w fuel hOk h]
    rw [hr]
    simp only [Bool.and_eq_true, List.all_eq_true]
    rw [checkGRPCServerUp_eq_true_iff, dbAliveCond_eq_true_iff, redisAliveCond_eq_true_iff]
    tauto

/-- Witness for C2: on the sample service the single spawned evaluation
sets the flag to true in the all-dials-succeed environment. -/
theorem c2_readiness_once_conjunction_witness :
    (svcFull.Start WaitOutcome.termSig).readyTasks = 1
      ∧ (svcFull.Ready liveWorld 1).isReady = true := by
  refine ⟨c2_readiness_once_conjunction.1 svcFull WaitOutcome.termSig, ?_⟩
  refine (c2_readiness_once_conjunction.2 svcFull liveWorld 1 true rfl).mpr
    ⟨?_, ?_, rfl, ?_, ?_⟩
  · intro sub hsub
    simp only [svcFull, List.mem_singleton] at hsub
    subst hsub
    rfl
  · intro g hg
    rfl
  · intro db hdb
    simp only [svcFull, Option.some_inj] at hdb
    subst hdb
    rfl
  · intro redis hredis
    simp only [svcFull, Option.some_inj] at hredis
    subst hredis
    rfl

/-- C4: the claim says the HTTP listener reachability check performs a
bounded number of retries and reports failure (false) once the bound is
exhausted, terminating on every input.  The code does the opposite: the
retry loop can never produce `false` (its only exit is a successful
dial), and against an address that never accepts a connection it never
returns at all, however much fuel it is observed for. -/
theorem c4_http_check_never_reports_failure :
    (∀ (s : Service) (w : World) (srv : HTTPServer) (fuel : Nat),
        (s.checkHTTPServerUp w srv fuel == some false) = false)
    ∧ (∀ (s : Service) (srv : HTTPServer) (fuel : Nat),
        s.checkHTTPServerUp deadWorld srv fuel = none) := by
  constructor
  · intro s w srv fuel
    exact checkHTTPLoop_ne_some_false (w.tcpDialOk srv.Addr) 0 fuel
  · intro s srv fuel
    exact checkHTTPLoop_dead 0 fuel

/-- C7: `Start` returns nil when the signal trap resolves with the
termination-signal sentinel, returns the originating context error when
the context was cancelled for another reason, and a context cancellation
error is never the termination sentinel, so the two conditions are
internally distinguishable. -/
theorem c7_start_signal_vs_cancellation :
    (∀ s : Service, (s.Start WaitOutcome.termSig).ret = none)
    ∧ (∀ (s : Service) (e : CtxErr),
        (s.Start (WaitOutcome.ctxDone e)).ret = some e.toGoError)
    ∧ (∀ e : CtxErr, (e.toGoError == ErrTermSig) = false)
    ∧ SignalTrap.Wait WaitOutcome.termSig = ErrTermSig := by
  refine ⟨fun s => rfl, fun s e => ?_, fun e => ?_, rfl⟩
  · cases e <;> rfl
  · cases e <;> rfl

/-- Erasure of the teardown trace to its attempted steps, exposing the
five phases in their fixed order followed by the process exit. -/
theorem stop_steps_eq (s : Service) :
    s.Stop.map StopEvent.step =
      (s.SubServices.map fun sub => StopStep.subServiceClose sub.Name)
      ++ (s.GRPCServers.map fun g => StopStep.grpcStop g.address)
      ++ (s.HTTPServers.map fun h => StopStep.httpShutdown h.Addr)
      ++ (if s.DB.isSome then [StopStep.dbClose] else [])
      ++ (if s.Redis.isSome then [StopStep.redisClose] else [])
      ++ [StopStep.exit 1] := by
  cases hdb : s.DB <;> cases hredis : s.Redis <;>
    simp [Service.Stop, hdb, hredis, StopEvent.step, Function.comp_def]

/-- C3: `Stop()` attempts all five teardown phases in fixed order — close
every sub-service, gracefully stop every gRPC listener, shut down every
HTTP listener, close the DB handle if attached, close the cache handle
if attached — and the attempted steps are identical whatever close
failures the resources report; afterwards it terminates the process with
the fixed non-zero status 1 even on a fully successful shutdown. -/
theorem c3_stop_fixed_order_unconditional :
    ∀ (s : Service) (subErr httpErr : String → Option GoError)
      (dbErr redisErr : Option GoError),
      ((s.withCloseErrs subErr httpErr dbErr redisErr).Stop.map StopEvent.step
          = s.Stop.map StopEvent.step)
      ∧ (s.Stop.map StopEvent.step =
          (s.SubServices.map fun sub => StopStep.subServiceClose sub.Name)
          ++ (s.GRPCServers.map fun g => StopStep.grpcStop g.address)
          ++ (s.HTTPServers.map fun h => StopStep.httpShutdown h.Addr)
          ++ (if s.DB.isSome then [StopStep.dbClose] else [])
          ++ (if s.Redis.isSome then [StopStep.redisClose] else [])
          ++ [StopStep.exit 1])
      ∧ s.Stop.getLast? = some (StopEvent.exitProcess 1) := by
  intro s subErr httpErr dbErr redisErr
  refine ⟨?_, stop_steps_eq s, ?_⟩
  · rw [stop_steps_eq, stop_steps_eq]
    cases hdb : s.DB <;> cases hredis : s.Redis <;>
      simp [Service.withCloseErrs, hdb, hredis, Function.comp_def]
  · simp only [Service.Stop, ← List.append_assoc]
    exact getLast_append_singleton _ _

/-- C5: the readiness flag is stored as false at construction, no
recognized option touches it, and a reader that queries the readiness
endpoint while the flag is still false (or the flag pointer is nil)
receives the 503 JSON error response — never a success or some other
error. -/
theorem c5_ready_flag_initialized_false :
    (∀ (name : String) (ros : List RecognizedOption) (s : Service),
        New name (ros.map RecognizedOption.toOption) = Except.ok s →
        s.isReady = false)
    ∧ (∀ (ro : RecognizedOption) (s : Service),
        (ro.toOption s).1.isReady = s.isReady)
    ∧ ready [some false] = AnswerWithJSONError 503
    ∧ ready [none] = AnswerWithJSONError 503
    ∧ (AnswerWithJSONError 503).status = 503 := by
  refine ⟨?_, recognized_apply_isReady, rfl, rfl, rfl⟩
  intro name ros s h
  obtain ⟨s', hs', hr⟩ := applyOptions_recognized ros (initService name)
  simp only [New] at h
  rw [hs', Except.ok.injEq] at h
  subst h
  exact hr

/-- Witness for C5: `New "svc" [WithGRPCServer ":8080"]` yields
`svcGrpcOnly`, whose readiness flag is false. -/
theorem c5_ready_flag_initialized_false_witness : svcGrpcOnly.isReady = false :=
  c5_ready_flag_initialized_false.1 "svc" [RecognizedOption.grpcServer ":8080"]
    svcGrpcOnly rfl

/-- C6: options are applied strictly in call order (a successful
construction is the left fold of the option mutations over the initial
service), and the first failing option aborts construction with exactly
its error, returning no service. -/
theorem c6_options_in_order_first_failure_aborts :
    (∀ (name : String) (opts : List ServiceOption) (s : Service),
        New name opts = Except.ok s →
        s = opts.foldl (fun acc o => (o acc).1) (initService name))
    ∧ (∀ (name : String) (pre : List ServiceOption) (o : ServiceOption)
        (rest : List ServiceOption) (s₁ s₂ : Service) (e : GoError),
        applyOptions pre (initService name) = Except.ok s₁ → o s₁ = (s₂, some e) →
        New name (pre ++ o :: rest) = Except.error e) := by
  constructor
  · intro name opts s h
    exact applyOptions_ok_foldl opts (initService name) s h
  · intro name pre o rest s₁ s₂ e h1 h2
    exact applyOptions_abort pre o rest (initService name) s₁ s₂ e h1 h2

/-- Witness for C6: a one-option run folds in order, and a failing second
option aborts the three-option construction with its own error. -/
theorem c6_options_in_order_first_failure_aborts_witness :
    initService "svc" = [okOpt].foldl (fun acc o => (o acc).1) (initService "svc")
      ∧ New "svc" [okOpt, failingOpt, okOpt] = Except.error (GoError.other "boom") := by
  constructor
  · exact c6_options_in_order_first_failure_aborts.1 "svc" [okOpt]
      (initService "svc") rfl
  · exact c6_options_in_order_first_failure_aborts.2 "svc" [okOpt] failingOpt [okOpt]
      (initService "svc") (initService "svc") (GoError.other "boom") rfl rfl

/-- C8: a failed liveness query answers 503 with the JSON payload whose
`ErrorCode` field equals the HTTP status and whose `ErrorDetails` field
is exactly "error during request processing" — concretely, a
false-returning checker yields status 503 with that exact body — and a
successful query answers 200 with an empty body. -/
theorem c8_json_error_payload :
    (∀ t : Nat, alive t [fun _ => false] =
        { status := 503,
          body := "\x7b\"ErrorCode\":503,\"ErrorDetails\":\"error during request processing\"\x7d" })
    ∧ (∀ code : Nat, (AnswerWithJSONError code).status = code
        ∧ (AnswerWithJSONError code).body
            = marshalErrorResponse
                { ErrorCode := code, ErrorDetails := "error during request processing" })
    ∧ (∀ (t : Nat) (cs : List (Nat → Bool)),
        (∀ c ∈ cs, c t = true) → alive t cs = { status := 200, body := "" }) :=
  ⟨fun _ => rfl, fun _ => ⟨rfl, rfl⟩, fun t cs h => alive_of_all_true t cs h⟩

/-- Witness for C8: an all-true checker list answers 200 with an empty
body. -/
theorem c8_json_error_payload_witness :
    alive 0 [fun _ => true] = { status := 200, body := "" } :=
  c8_json_error_payload.2.2 0 [fun _ => true]
    (by intro c hc
        simp only [List.mem_singleton] at hc
        subst hc
        rfl)

/-- C9: the cache sub-condition used by `IsAlive` and the readiness
evaluation is exactly "the ping reply equals PONG": the error returned
alongside the reply is only logged and never enters the result, so a
ping answering PONG together with a non-nil error still counts the cache
as alive. -/
theorem c9_redis_pong_ignores_error :
    (∀ (s : Service) (redis : Redis),
        s.checkRedisAlive redis = (redis.Ping.1 == "PONG"))
    ∧ (∀ (s : Service) (redis : Redis) (e : Option GoError),
        s.checkRedisAlive { redis with Ping := (redis.Ping.1, e) }
          = s.checkRedisAlive redis)
    ∧ (∀ (s : Service) (redis : Redis),
        ({ s with Redis := some { redis with
              Ping := ("PONG", some (GoError.other "connection reset")) } }
          : Service).redisAliveCond = true) := by
  refine ⟨fun s redis => rfl, fun s redis e => rfl, fun s redis => ?_⟩
  simp [Service.redisAliveCond, Service.checkRedisAlive]

/-- C10: every recognized option — `WithGRPCServer`,
`WithTechHTTPServerOption`, `WithDB`, `WithRedis` — has an `Apply` that
returns nil on every input, so `New` applied to any combination of only
these options never returns an error. -/
theorem c10_recognized_options_never_fail :
    (∀ (ro : RecognizedOption) (s : Service), (ro.toOption s).2 = none)
    ∧ (∀ (name : String) (ros : List RecognizedOption),
        ∃ s, New name (ros.map RecognizedOption.toOption) = Except.ok s) := by
  refine ⟨recognized_apply_snd, fun name ros => ?_⟩
  obtain ⟨s, hs, -⟩ := applyOptions_recognized ros (initService name)
  exact ⟨s, hs⟩

end App
